import Mathlib

/-! rs232: option validation, terminal attributes, control signals.

A shallow embedding of the Go package `rs232` (files `rs232.go`,
`rs232_linux.go`, `rs232_darwin.go`).

Conventions of the embedding:

* Go's unsigned machine integers (`uint`, `uint8`, `uint32`, `uint64`) are
  natural numbers; the conversion `uint32(x)` is `x % 2 ^ 32`. `uint` is taken to
  be 64 bits wide (amd64, arm64), so `uint64(x)` of a `uint` is `x` itself.
* A Go result `(v, err)` is a pair whose error component is an `Option`:
  `none` is Go's `nil`. A `*Port` result is an `Option Port` likewise.
* The package is built for one operating system at a time; the build target is
  the explicit parameter `OS`.
* The constants of Go's `syscall` package are declared in the standard library,
  not in the package; they are collected in the record `Syscall` with the values
  of `zerrors_linux_amd64.go` and `zerrors_darwin_amd64.go`.
* The operating system (device files, ioctl requests) is explicit state that is
  threaded through the calls, together with the answers it gives.
-/

namespace RS232

/-! ## Operating-system variants and `syscall` constants -/

/-- The two build targets of the package. -/
inductive OS where
  | linux
  | darwin
deriving DecidableEq, Repr

/-- The constants of Go's `syscall` package that the package refers to. -/
structure Syscall where
  CS5 : Nat
  CS6 : Nat
  CS7 : Nat
  CS8 : Nat
  CSTOPB : Nat
  PARENB : Nat
  PARODD : Nat
  CREAD : Nat
  CLOCAL : Nat
  IGNPAR : Nat
  VMIN : Nat
  VTIME : Nat
  TIOCM_DTR : Nat
  TIOCM_RTS : Nat
  TIOCM_CTS : Nat
  TIOCM_DSR : Nat
deriving DecidableEq, Repr

/-- Values of `syscall` on linux/amd64. -/
def linuxSyscall : Syscall where
  CS5 := 0x0
  CS6 := 0x10
  CS7 := 0x20
  CS8 := 0x30
  CSTOPB := 0x40
  PARENB := 0x100
  PARODD := 0x200
  CREAD := 0x80
  CLOCAL := 0x800
  IGNPAR := 0x4
  VMIN := 0x6
  VTIME := 0x5
  TIOCM_DTR := 0x2
  TIOCM_RTS := 0x4
  TIOCM_CTS := 0x20
  TIOCM_DSR := 0x100

/-- Values of `syscall` on darwin/amd64. -/
def darwinSyscall : Syscall where
  CS5 := 0x0
  CS6 := 0x100
  CS7 := 0x200
  CS8 := 0x300
  CSTOPB := 0x400
  PARENB := 0x1000
  PARODD := 0x2000
  CREAD := 0x800
  CLOCAL := 0x8000
  IGNPAR := 0x4
  VMIN := 0x10
  VTIME := 0x11
  TIOCM_DTR := 0x2
  TIOCM_RTS := 0x4
  TIOCM_CTS := 0x20
  TIOCM_DSR := 0x100

/-- The `syscall` constants of a build target. -/
def syscall : OS → Syscall
  | .linux => linuxSyscall
  | .darwin => darwinSyscall

/-! ### Linux speed codes (`syscall.B200` ... `syscall.B4000000`) -/

def B200 : Nat := 0x6
def B300 : Nat := 0x7
def B600 : Nat := 0x8
def B1200 : Nat := 0x9
def B1800 : Nat := 0xa
def B2400 : Nat := 0xb
def B4800 : Nat := 0xc
def B9600 : Nat := 0xd
def B19200 : Nat := 0xe
def B38400 : Nat := 0xf
def B57600 : Nat := 0x1001
def B115200 : Nat := 0x1002
def B230400 : Nat := 0x1003
def B460800 : Nat := 0x1004
def B500000 : Nat := 0x1005
def B576000 : Nat := 0x1006
def B921600 : Nat := 0x1007
def B1000000 : Nat := 0x1008
def B1152000 : Nat := 0x1009
def B1500000 : Nat := 0x100a
def B2000000 : Nat := 0x100b
def B2500000 : Nat := 0x100c
def B3000000 : Nat := 0x100d
def B3500000 : Nat := 0x100e
def B4000000 : Nat := 0x100f

/-! ### OS X speed codes (`rs232_darwin.go`, "direct" values) -/

def _B200 : Nat := 200
def _B300 : Nat := 300
def _B600 : Nat := 600
def _B1200 : Nat := 1200
def _B1800 : Nat := 1800
def _B2400 : Nat := 2400
def _B4800 : Nat := 4800
def _B7200 : Nat := 7200
def _B9600 : Nat := 9600
def _B14400 : Nat := 14400
def _B19200 : Nat := 19200
def _B28800 : Nat := 28800
def _B38400 : Nat := 38400
def _B57600 : Nat := 57600
def _B78600 : Nat := 78600
def _B115200 : Nat := 115200
def _B230400 : Nat := 230400

/-- Number of termios control codes on OS X. -/
def _NCC : Nat := 20

/-! ## Options and errors (`rs232.go`) -/

/-- Serial port options. -/
structure Options where
  BitRate : Nat
  DataBits : Nat
  StopBits : Nat
  Parity : Nat
  Timeout : Nat
deriving DecidableEq, Repr

def PARITY_NONE : Nat := 0
def PARITY_ODD : Nat := 1
def PARITY_EVEN : Nat := 2

/-- Error holds an error code and the corresponding human-readable message. -/
structure Error where
  Code : Nat
  Msg : String
deriving DecidableEq, Repr

def ERR_NONE : Nat := 0
def ERR_DEVICE : Nat := 1
def ERR_ACCESS : Nat := 2
def ERR_PARAMS : Nat := 3

/-- The text of a format string with a single `%d` verb: the text before the
verb, the argument in decimal, the text after the verb. -/
def sprintf (before : String) (n : Nat) (after : String) : String :=
  before ++ toString n ++ after

/-! ## Constant tables -/

/-- Linux `bitrate2mask` (`rs232_linux.go`). -/
def bitrate2maskLinux (rate : Nat) : Nat × Option String :=
  if rate = 200 then (B200, none)
  else if rate = 300 then (B300, none)
  else if rate = 600 then (B600, none)
  else if rate = 1200 then (B1200, none)
  else if rate = 1800 then (B1800, none)
  else if rate = 2400 then (B2400, none)
  else if rate = 4800 then (B4800, none)
  else if rate = 9600 then (B9600, none)
  else if rate = 19200 then (B19200, none)
  else if rate = 38400 then (B38400, none)
  else if rate = 57600 then (B57600, none)
  else if rate = 115200 then (B115200, none)
  else if rate = 230400 then (B230400, none)
  else if rate = 460800 then (B460800, none)
  else if rate = 500000 then (B500000, none)
  else if rate = 576000 then (B576000, none)
  else if rate = 921600 then (B921600, none)
  else if rate = 1000000 then (B1000000, none)
  else if rate = 1152000 then (B1152000, none)
  else if rate = 1500000 then (B1500000, none)
  else if rate = 2000000 then (B2000000, none)
  else if rate = 2500000 then (B2500000, none)
  else if rate = 3000000 then (B3000000, none)
  else if rate = 3500000 then (B3500000, none)
  else if rate = 4000000 then (B4000000, none)
  else (0, some (sprintf "invalid BitRate (" rate ")"))

/-- OS X `bitrate2mask` (`rs232_darwin.go`). -/
def bitrate2maskDarwin (rate : Nat) : Nat × Option String :=
  if rate = 200 then (_B200, none)
  else if rate = 300 then (_B300, none)
  else if rate = 600 then (_B600, none)
  else if rate = 1200 then (_B1200, none)
  else if rate = 1800 then (_B1800, none)
  else if rate = 2400 then (_B2400, none)
  else if rate = 4800 then (_B4800, none)
  else if rate = 7200 then (_B7200, none)
  else if rate = 9600 then (_B9600, none)
  else if rate = 14400 then (_B14400, none)
  else if rate = 19200 then (_B19200, none)
  else if rate = 28800 then (_B28800, none)
  else if rate = 38400 then (_B38400, none)
  else if rate = 57600 then (_B57600, none)
  else if rate = 78600 then (_B78600, none)
  else if rate = 115200 then (_B115200, none)
  else if rate = 230400 then (_B230400, none)
  else (0, some (sprintf "invalid BitRate (" rate ")"))

/-- The `bitrate2mask` of the build target. -/
def bitrate2mask : OS → Nat → Nat × Option String
  | .linux => bitrate2maskLinux
  | .darwin => bitrate2maskDarwin

def databits2mask (os : OS) (nbits : Nat) : Nat × Option String :=
  if nbits = 5 then ((syscall os).CS5, none)
  else if nbits = 6 then ((syscall os).CS6, none)
  else if nbits = 7 then ((syscall os).CS7, none)
  else if nbits = 8 then ((syscall os).CS8, none)
  else (0, some (sprintf "invalid DataBits (" nbits ")"))

def stopbits2mask (os : OS) (nbits : Nat) : Nat × Option String :=
  if nbits = 1 then (0, none)
  else if nbits = 2 then ((syscall os).CSTOPB, none)
  else (0, some (sprintf "invalid StopBits (" nbits ")"))

def parity2mask (os : OS) (parity : Nat) : Nat × Option String :=
  if parity = PARITY_NONE then (0, none)
  else if parity = PARITY_ODD then ((syscall os).PARENB ||| (syscall os).PARODD, none)
  else if parity = PARITY_EVEN then ((syscall os).PARENB, none)
  else (0, some (sprintf "invalid Parity (" parity ")"))

/-! ## Option validator -/

/-- Go's `validateOptions`: the speed code, the format mask and the error. -/
def validateOptions (os : OS) (o : Options) : Nat × Nat × Option Error :=
  match bitrate2mask os o.BitRate with
  | (_, some err) => (0, 0, some ⟨ERR_PARAMS, err⟩)
  | (mrate, none) =>
    match databits2mask os o.DataBits with
    | (_, some err) => (0, 0, some ⟨ERR_PARAMS, err⟩)
    | (mdata, none) =>
      match parity2mask os o.Parity with
      | (_, some err) => (0, 0, some ⟨ERR_PARAMS, err⟩)
      | (mpari, none) =>
        match stopbits2mask os o.StopBits with
        | (_, some err) => (0, 0, some ⟨ERR_PARAMS, err⟩)
        | (mstop, none) => (mrate, mdata ||| mpari ||| mstop, none)

/-! ## Terminal attributes -/

/-- Go's `syscall.Termios` on linux (declared in the standard library). -/
structure Termios where
  Iflag : Nat
  Oflag : Nat
  Cflag : Nat
  Lflag : Nat
  Line : Nat
  Cc : List Nat
  Ispeed : Nat
  Ospeed : Nat
deriving DecidableEq, Repr

/-- The `termios` record of `rs232_darwin.go`. -/
structure termios where
  iflag : Nat
  oflag : Nat
  cflag : Nat
  lflag : Nat
  cc : List Nat
  ispeed : Nat
  ospeed : Nat
deriving DecidableEq, Repr

/-- The conversion `uint32(x)`. -/
def uint32 (x : Nat) : Nat := x % 2 ^ 32

/-- The array literal `[n]uint8{i: a, j: b}`: `n` slots, zero except at the two
keyed indices. -/
def ccLiteral (n i a j b : Nat) : List Nat :=
  ((List.replicate n 0).set i a).set j b

/-- The record literal built by the Linux `setTermios`. -/
def linuxTermios (mrate mfmt vmin vtime : Nat) : Termios where
  Iflag := linuxSyscall.IGNPAR
  Oflag := 0
  Cflag := uint32 mrate ||| uint32 mfmt ||| linuxSyscall.CREAD ||| linuxSyscall.CLOCAL
  Lflag := 0
  Line := 0
  Cc := ccLiteral 32 linuxSyscall.VMIN vmin linuxSyscall.VTIME vtime
  Ispeed := uint32 mrate
  Ospeed := uint32 mrate

/-- The record literal built by the OS X `setTermios`. -/
def darwinTermios (mrate mfmt vmin vtime : Nat) : termios where
  iflag := darwinSyscall.IGNPAR
  oflag := 0
  cflag := mfmt ||| darwinSyscall.CREAD ||| darwinSyscall.CLOCAL
  lflag := 0
  cc := ccLiteral _NCC darwinSyscall.VMIN vmin darwinSyscall.VTIME vtime
  ispeed := mrate
  ospeed := mrate

/-- The argument of the terminal-attribute request (`TCSETS` on Linux,
`TIOCSETA` on OS X). -/
inductive Attributes where
  | linux (t : Termios)
  | darwin (t : termios)
deriving DecidableEq, Repr

/-- The record `setTermios` builds on a build target. -/
def buildTermios : OS → Nat → Nat → Nat → Nat → Attributes
  | .linux, mrate, mfmt, vmin, vtime => .linux (linuxTermios mrate mfmt vmin vtime)
  | .darwin, mrate, mfmt, vmin, vtime => .darwin (darwinTermios mrate mfmt vmin vtime)

/-- Input flags of the record. -/
def Attributes.inputFlags : Attributes → Nat
  | .linux t => t.Iflag
  | .darwin t => t.iflag

/-- Output flags of the record. -/
def Attributes.outputFlags : Attributes → Nat
  | .linux t => t.Oflag
  | .darwin t => t.oflag

/-- Control flags of the record. -/
def Attributes.controlFlags : Attributes → Nat
  | .linux t => t.Cflag
  | .darwin t => t.cflag

/-- Local flags of the record. -/
def Attributes.localFlags : Attributes → Nat
  | .linux t => t.Lflag
  | .darwin t => t.lflag

/-- Control-character slots of the record. -/
def Attributes.controlChars : Attributes → List Nat
  | .linux t => t.Cc
  | .darwin t => t.cc

/-- Input speed of the record. -/
def Attributes.inputSpeed : Attributes → Nat
  | .linux t => t.Ispeed
  | .darwin t => t.ispeed

/-- Output speed of the record. -/
def Attributes.outputSpeed : Attributes → Nat
  | .linux t => t.Ospeed
  | .darwin t => t.ospeed

/-! ## The operating system as explicit state -/

/-- A request `Open` sends to the operating system. The device file is always
opened with `O_RDWR|O_NOCTTY|O_NONBLOCK` and mode 0666; only the name varies. -/
inductive OSCall where
  | openFile (name : String)
  | setAttributes (fd : Nat) (attrs : Attributes)
  | setNonblock (fd : Nat) (nonblocking : Bool)
  | close (fd : Nat)
deriving DecidableEq, Repr

/-- A failure of `os.OpenFile`, with the answers of `os.IsNotExist` and
`os.IsPermission` and the text of `err.Error()`. -/
structure PathError where
  isNotExist : Bool
  isPermission : Bool
  text : String
deriving DecidableEq, Repr

/-- How the operating system answers the requests of one `Open`: each of the
three external steps may succeed or fail. -/
structure Responses where
  openFile : Except PathError Nat
  attrErrno : Nat
  nonblockErr : Option String

/-- The part of the operating system `Open` touches: the requests received so
far (oldest first), the descriptors currently open, and the terminal attributes
last accepted. -/
structure Kernel where
  trace : List OSCall
  openFds : List Nat
  attrs : Option Attributes
deriving DecidableEq, Repr

/-- An open device file (`*os.File`). -/
structure File where
  name : String
  fd : Nat
deriving DecidableEq, Repr

/-- The live handle. -/
structure Port where
  options : Options
  file : File
deriving DecidableEq, Repr

/-- The external `os.OpenFile`. -/
def osOpenFile (env : Responses) (k : Kernel) (name : String) :
    Except PathError File × Kernel :=
  match env.openFile with
  | .error e => (.error e, { k with trace := k.trace ++ [.openFile name] })
  | .ok fd =>
    (.ok ⟨name, fd⟩,
      { k with trace := k.trace ++ [.openFile name], openFds := fd :: k.openFds })

/-- The external terminal-attribute ioctl; yields the errno. -/
def ioctlSetAttributes (env : Responses) (k : Kernel) (fd : Nat) (a : Attributes) :
    Nat × Kernel :=
  if env.attrErrno ≠ 0 then
    (env.attrErrno, { k with trace := k.trace ++ [.setAttributes fd a] })
  else
    (0, { k with trace := k.trace ++ [.setAttributes fd a], attrs := some a })

/-- The external `syscall.SetNonblock`. -/
def syscallSetNonblock (env : Responses) (k : Kernel) (fd : Nat) (nonblocking : Bool) :
    Option String × Kernel :=
  (env.nonblockErr, { k with trace := k.trace ++ [.setNonblock fd nonblocking] })

/-- The external `file.Close()`. -/
def fileClose (k : Kernel) (file : File) : Kernel :=
  { k with trace := k.trace ++ [.close file.fd], openFds := k.openFds.erase file.fd }

/-- The name of the terminal-attribute request in the error text. -/
def attrRequestName : OS → String
  | .linux => "ioctl TCSETS "
  | .darwin => "ioctl TIOCSETA "

/-- Go's `setTermios` (both variants): build the record, submit it. -/
def setTermios (os : OS) (env : Responses) (k : Kernel) (fd mrate mfmt vmin vtime : Nat) :
    Option Error × Kernel :=
  let termios := buildTermios os mrate mfmt vmin vtime
  let (errno, k1) := ioctlSetAttributes env k fd termios
  if errno ≠ 0 then
    (some ⟨ERR_PARAMS, sprintf (attrRequestName os) errno ""⟩, k1)
  else
    (none, k1)

/-- Go's `Open`: the pair `(port, err)` and the operating-system state after. -/
def Open (os : OS) (env : Responses) (k : Kernel) (name : String) (opt : Options) :
    (Option Port × Option Error) × Kernel :=
  match validateOptions os opt with
  | (_, _, some err) => ((none, some err), k)
  | (mrate, mformat, none) =>
    match osOpenFile env k name with
    | (.error err, k1) =>
      if err.isNotExist then ((none, some ⟨ERR_DEVICE, err.text⟩), k1)
      else if err.isPermission then ((none, some ⟨ERR_ACCESS, err.text⟩), k1)
      else ((none, some ⟨ERR_PARAMS, err.text⟩), k1)
    | (.ok file, k1) =>
      let fd := file.fd
      let vmin := if opt.Timeout = 0 then 1 else 0
      match setTermios os env k1 fd mrate mformat vmin opt.Timeout with
      | (some err, k2) => ((none, some err), fileClose k2 file)
      | (none, k2) =>
        match syscallSetNonblock env k2 fd false with
        | (some err, k3) => ((none, some ⟨ERR_PARAMS, err⟩), fileClose k3 file)
        | (none, k3) => ((some ⟨opt, file⟩, none), k3)

/-! ## Control signals -/

/-- The largest `uint`. -/
def UINT_MAX : Nat := 2 ^ 64 - 1

/-- Go's `x &^ y` on `uint`: `x & (^y)`, the complement being `UINT_MAX ^ y`. -/
def andNot (x y : Nat) : Nat := x &&& (UINT_MAX ^^^ y)

/-- The serial device behind a port: its modem-bit register, held as the `uint`
the requests exchange through the pointer `&state`, and the errno the `TIOCMGET`
and `TIOCMSET` requests yield (0 is success). -/
structure Device where
  modem : Nat
  mgetErrno : Nat
  msetErrno : Nat
deriving DecidableEq, Repr

/-- The request `TIOCMGET`: writes the register through the pointer. -/
def ioctlTIOCMGET (d : Device) (state : Nat) : Nat × Nat :=
  if d.mgetErrno ≠ 0 then (state, d.mgetErrno) else (d.modem, 0)

/-- The request `TIOCMSET`: reads the new register through the pointer. -/
def ioctlTIOCMSET (d : Device) (state : Nat) : Device × Nat :=
  if d.msetErrno ≠ 0 then (d, d.msetErrno) else ({ d with modem := state }, 0)

def getControlSignal (d : Device) (sigmask : Nat) : Bool × Option String :=
  let state := 0
  let (state, errno) := ioctlTIOCMGET d state
  if errno ≠ 0 then
    (false, some (sprintf "ioctl TIOCMGET " errno ""))
  else
    (decide (state &&& sigmask ≠ 0), none)

def setControlSignal (d : Device) (sigmask : Nat) (level : Bool) : Option String × Device :=
  let state := 0
  let (state, errno) := ioctlTIOCMGET d state
  if errno ≠ 0 then
    (some (sprintf "ioctl TIOCMGET " errno ""), d)
  else
    let state := match level with
      | true => state ||| sigmask
      | false => andNot state sigmask
    let (d1, errno) := ioctlTIOCMSET d state
    if errno ≠ 0 then
      (some (sprintf "ioctl TIOCMSET " errno ""), d1)
    else
      (none, d1)

def GetRTS (os : OS) (d : Device) : Bool × Option String :=
  getControlSignal d (syscall os).TIOCM_RTS

def GetCTS (os : OS) (d : Device) : Bool × Option String :=
  getControlSignal d (syscall os).TIOCM_CTS

def GetDTR (os : OS) (d : Device) : Bool × Option String :=
  getControlSignal d (syscall os).TIOCM_DTR

def GetDSR (os : OS) (d : Device) : Bool × Option String :=
  getControlSignal d (syscall os).TIOCM_DSR

def SetDTR (os : OS) (d : Device) (level : Bool) : Option String × Device :=
  setControlSignal d (syscall os).TIOCM_DTR level

def SetRTS (os : OS) (d : Device) (level : Bool) : Option String × Device :=
  setControlSignal d (syscall os).TIOCM_RTS level

/-! ## The documented option ranges (doc comment of `Options`) -/

/-- Valid bit rates (linux), as listed in the doc comment of `Options`. -/
def documentedRatesLinux : List Nat :=
  [200, 300, 600, 1200, 1800, 2400, 4800, 9600, 19200, 38400, 57600,
   115200, 230400, 460800, 500000, 576000, 921600, 1000000, 1152000,
   1500000, 2000000, 2500000, 3000000, 3500000, 4000000]

/-- Valid bit rates (OS X), as listed in the doc comment of `Options`. -/
def documentedRatesDarwin : List Nat :=
  [200, 300, 600, 1200, 1800, 2400, 4800, 7200, 9600, 14400, 19200, 28800,
   38400, 57600, 78600, 115200, 230400]

/-- The documented bit rates of a build target. -/
def documentedRates : OS → List Nat
  | .linux => documentedRatesLinux
  | .darwin => documentedRatesDarwin

/-- The documented valid configurations. -/
def Documented (os : OS) (o : Options) : Prop :=
  o.BitRate ∈ documentedRates os ∧ o.DataBits ∈ [5, 6, 7, 8] ∧
    o.Parity ∈ [PARITY_NONE, PARITY_ODD, PARITY_EVEN] ∧ o.StopBits ∈ [1, 2]

instance (os : OS) (o : Options) : Decidable (Documented os o) := by
  unfold Documented; infer_instance


/-! ## The specification's reading of the format mask -/

/-- Data-bits mask as the specification words it: CS5/CS6/CS7/CS8 for 5/6/7/8. -/
def specDataMask (os : OS) (nbits : Nat) : Nat :=
  match nbits with
  | 5 => (syscall os).CS5
  | 6 => (syscall os).CS6
  | 7 => (syscall os).CS7
  | 8 => (syscall os).CS8
  | _ => 0

/-- Parity mask as the specification words it: none gives 0, odd gives
parity-enable with odd-parity, even gives parity-enable alone. -/
def specParityMask (os : OS) (parity : Nat) : Nat :=
  match parity with
  | 1 => (syscall os).PARENB ||| (syscall os).PARODD
  | 2 => (syscall os).PARENB
  | _ => 0

/-- Stop-bits mask as the specification words it: 0 for one stop bit, CSTOPB
for two. -/
def specStopMask (os : OS) (nbits : Nat) : Nat :=
  match nbits with
  | 2 => (syscall os).CSTOPB
  | _ => 0

/-! ## Inverse of the Linux speed table -/

/-- The Linux speed mask (`syscall.CBAUD`). -/
def CBAUD : Nat := 0x100f

/-- The bit rate a Linux speed code stands for (0 for a code `bitrate2mask`
never returns). -/
def rateOfLinuxCode (c : Nat) : Nat :=
  if c = B200 then 200
  else if c = B300 then 300
  else if c = B600 then 600
  else if c = B1200 then 1200
  else if c = B1800 then 1800
  else if c = B2400 then 2400
  else if c = B4800 then 4800
  else if c = B9600 then 9600
  else if c = B19200 then 19200
  else if c = B38400 then 38400
  else if c = B57600 then 57600
  else if c = B115200 then 115200
  else if c = B230400 then 230400
  else if c = B460800 then 460800
  else if c = B500000 then 500000
  else if c = B576000 then 576000
  else if c = B921600 then 921600
  else if c = B1000000 then 1000000
  else if c = B1152000 then 1152000
  else if c = B1500000 then 1500000
  else if c = B2000000 then 2000000
  else if c = B2500000 then 2500000
  else if c = B3000000 then 3000000
  else if c = B3500000 then 3500000
  else if c = B4000000 then 4000000
  else 0

/-- The format mask of a documented combination of data bits, parity and stop
bits. -/
def specFormatMask (os : OS) (dataBits parity stopBits : Nat) : Nat :=
  specDataMask os dataBits ||| specParityMask os parity ||| specStopMask os stopBits

/-! # Theorems -/

/-! ## Table lemmas -/

theorem mem_documentedRatesLinux (r : Nat) :
    r ∈ documentedRatesLinux ↔
      (r = 200 ∨ r = 300 ∨ r = 600 ∨ r = 1200 ∨ r = 1800 ∨ r = 2400 ∨ r = 4800 ∨
       r = 9600 ∨ r = 19200 ∨ r = 38400 ∨ r = 57600 ∨ r = 115200 ∨ r = 230400 ∨
       r = 460800 ∨ r = 500000 ∨ r = 576000 ∨ r = 921600 ∨ r = 1000000 ∨
       r = 1152000 ∨ r = 1500000 ∨ r = 2000000 ∨ r = 2500000 ∨ r = 3000000 ∨
       r = 3500000 ∨ r = 4000000) := by
  simp only [documentedRatesLinux, List.mem_cons, List.mem_singleton, List.not_mem_nil,
    or_false]

theorem mem_documentedRatesDarwin (r : Nat) :
    r ∈ documentedRatesDarwin ↔
      (r = 200 ∨ r = 300 ∨ r = 600 ∨ r = 1200 ∨ r = 1800 ∨ r = 2400 ∨ r = 4800 ∨
       r = 7200 ∨ r = 9600 ∨ r = 14400 ∨ r = 19200 ∨ r = 28800 ∨ r = 38400 ∨
       r = 57600 ∨ r = 78600 ∨ r = 115200 ∨ r = 230400) := by
  simp only [documentedRatesDarwin, List.mem_cons, List.mem_singleton, List.not_mem_nil,
    or_false]

theorem bitrate2maskLinux_of_mem {r : Nat} (h : r ∈ documentedRatesLinux) :
    ∃ c, bitrate2maskLinux r = (c, none) := by
  rw [mem_documentedRatesLinux] at h
  rcases h with
    rfl | rfl | rfl | rfl | rfl | rfl | rfl | rfl | rfl | rfl | rfl | rfl | rfl | rfl | rfl | rfl | rfl | rfl | rfl | rfl | rfl | rfl | rfl | rfl | rfl
  all_goals exact ⟨_, rfl⟩

theorem bitrate2maskLinux_of_not_mem {r : Nat} (h : r ∉ documentedRatesLinux) :
    bitrate2maskLinux r = (0, some (sprintf "invalid BitRate (" r ")")) := by
  rw [mem_documentedRatesLinux] at h
  unfold bitrate2maskLinux
  rw [if_neg (show ¬ r = 200 by omega),
    if_neg (show ¬ r = 300 by omega),
    if_neg (show ¬ r = 600 by omega),
    if_neg (show ¬ r = 1200 by omega),
    if_neg (show ¬ r = 1800 by omega),
    if_neg (show ¬ r = 2400 by omega),
    if_neg (show ¬ r = 4800 by omega),
    if_neg (show ¬ r = 9600 by omega),
    if_neg (show ¬ r = 19200 by omega),
    if_neg (show ¬ r = 38400 by omega),
    if_neg (show ¬ r = 57600 by omega),
    if_neg (show ¬ r = 115200 by omega),
    if_neg (show ¬ r = 230400 by omega),
    if_neg (show ¬ r = 460800 by omega),
    if_neg (show ¬ r = 500000 by omega),
    if_neg (show ¬ r = 576000 by omega),
    if_neg (show ¬ r = 921600 by omega),
    if_neg (show ¬ r = 1000000 by omega),
    if_neg (show ¬ r = 1152000 by omega),
    if_neg (show ¬ r = 1500000 by omega),
    if_neg (show ¬ r = 2000000 by omega),
    if_neg (show ¬ r = 2500000 by omega),
    if_neg (show ¬ r = 3000000 by omega),
    if_neg (show ¬ r = 3500000 by omega),
    if_neg (show ¬ r = 4000000 by omega)]

theorem bitrate2maskDarwin_of_mem {r : Nat} (h : r ∈ documentedRatesDarwin) :
    ∃ c, bitrate2maskDarwin r = (c, none) := by
  rw [mem_documentedRatesDarwin] at h
  rcases h with
    rfl | rfl | rfl | rfl | rfl | rfl | rfl | rfl | rfl | rfl | rfl | rfl | rfl | rfl | rfl | rfl | rfl
  all_goals exact ⟨_, rfl⟩

theorem bitrate2maskDarwin_of_not_mem {r : Nat} (h : r ∉ documentedRatesDarwin) :
    bitrate2maskDarwin r = (0, some (sprintf "invalid BitRate (" r ")")) := by
  rw [mem_documentedRatesDarwin] at h
  unfold bitrate2maskDarwin
  rw [if_neg (show ¬ r = 200 by omega),
    if_neg (show ¬ r = 300 by omega),
    if_neg (show ¬ r = 600 by omega),
    if_neg (show ¬ r = 1200 by omega),
    if_neg (show ¬ r = 1800 by omega),
    if_neg (show ¬ r = 2400 by omega),
    if_neg (show ¬ r = 4800 by omega),
    if_neg (show ¬ r = 7200 by omega),
    if_neg (show ¬ r = 9600 by omega),
    if_neg (show ¬ r = 14400 by omega),
    if_neg (show ¬ r = 19200 by omega),
    if_neg (show ¬ r = 28800 by omega),
    if_neg (show ¬ r = 38400 by omega),
    if_neg (show ¬ r = 57600 by omega),
    if_neg (show ¬ r = 78600 by omega),
    if_neg (show ¬ r = 115200 by omega),
    if_neg (show ¬ r = 230400 by omega)]

theorem bitrate2mask_of_mem (os : OS) {r : Nat} (h : r ∈ documentedRates os) :
    ∃ c, bitrate2mask os r = (c, none) := by
  cases os
  · exact bitrate2maskLinux_of_mem h
  · exact bitrate2maskDarwin_of_mem h

theorem bitrate2mask_of_not_mem (os : OS) {r : Nat} (h : r ∉ documentedRates os) :
    bitrate2mask os r = (0, some (sprintf "invalid BitRate (" r ")")) := by
  cases os
  · exact bitrate2maskLinux_of_not_mem h
  · exact bitrate2maskDarwin_of_not_mem h

theorem mem_dataBits (n : Nat) : n ∈ [5, 6, 7, 8] ↔ (n = 5 ∨ n = 6 ∨ n = 7 ∨ n = 8) := by
  simp only [List.mem_cons, List.mem_singleton, List.not_mem_nil, or_false]

theorem mem_parity (n : Nat) :
    n ∈ [PARITY_NONE, PARITY_ODD, PARITY_EVEN] ↔ (n = 0 ∨ n = 1 ∨ n = 2) := by
  simp only [PARITY_NONE, PARITY_ODD, PARITY_EVEN, List.mem_cons, List.mem_singleton,
    List.not_mem_nil, or_false]

theorem mem_stopBits (n : Nat) : n ∈ [1, 2] ↔ (n = 1 ∨ n = 2) := by
  simp only [List.mem_cons, List.mem_singleton, List.not_mem_nil, or_false]

theorem databits2mask_of_mem (os : OS) {n : Nat} (h : n ∈ [5, 6, 7, 8]) :
    databits2mask os n = (specDataMask os n, none) := by
  rw [mem_dataBits] at h
  rcases h with rfl | rfl | rfl | rfl <;> rfl

theorem databits2mask_of_not_mem (os : OS) {n : Nat} (h : n ∉ [5, 6, 7, 8]) :
    databits2mask os n = (0, some (sprintf "invalid DataBits (" n ")")) := by
  rw [mem_dataBits] at h
  unfold databits2mask
  split_ifs <;> first | rfl | omega

theorem parity2mask_of_mem (os : OS) {n : Nat}
    (h : n ∈ [PARITY_NONE, PARITY_ODD, PARITY_EVEN]) :
    parity2mask os n = (specParityMask os n, none) := by
  rw [mem_parity] at h
  rcases h with rfl | rfl | rfl <;> rfl

theorem parity2mask_of_not_mem (os : OS) {n : Nat}
    (h : n ∉ [PARITY_NONE, PARITY_ODD, PARITY_EVEN]) :
    parity2mask os n = (0, some (sprintf "invalid Parity (" n ")")) := by
  rw [mem_parity] at h
  unfold parity2mask PARITY_NONE PARITY_ODD PARITY_EVEN
  split_ifs <;> first | rfl | omega

theorem stopbits2mask_of_mem (os : OS) {n : Nat} (h : n ∈ [1, 2]) :
    stopbits2mask os n = (specStopMask os n, none) := by
  rw [mem_stopBits] at h
  rcases h with rfl | rfl <;> rfl

theorem stopbits2mask_of_not_mem (os : OS) {n : Nat} (h : n ∉ [1, 2]) :
    stopbits2mask os n = (0, some (sprintf "invalid StopBits (" n ")")) := by
  rw [mem_stopBits] at h
  unfold stopbits2mask
  split_ifs <;> first | rfl | omega

/-! ## The validator, case by case -/

theorem validateOptions_of_documented (os : OS) (o : Options) (h : Documented os o) :
    ∃ c, bitrate2mask os o.BitRate = (c, none) ∧
      validateOptions os o =
        (c, specDataMask os o.DataBits ||| specParityMask os o.Parity |||
          specStopMask os o.StopBits, none) := by
  obtain ⟨hr, hd, hp, hs⟩ := h
  obtain ⟨c, hc⟩ := bitrate2mask_of_mem os hr
  refine ⟨c, hc, ?_⟩
  simp only [validateOptions, hc, databits2mask_of_mem os hd, parity2mask_of_mem os hp,
    stopbits2mask_of_mem os hs]

theorem validateOptions_bad_rate (os : OS) (o : Options)
    (h : o.BitRate ∉ documentedRates os) :
    validateOptions os o =
      (0, 0, some ⟨ERR_PARAMS, sprintf "invalid BitRate (" o.BitRate ")"⟩) := by
  simp only [validateOptions, bitrate2mask_of_not_mem os h]

theorem validateOptions_bad_data (os : OS) (o : Options)
    (hr : o.BitRate ∈ documentedRates os) (h : o.DataBits ∉ [5, 6, 7, 8]) :
    validateOptions os o =
      (0, 0, some ⟨ERR_PARAMS, sprintf "invalid DataBits (" o.DataBits ")"⟩) := by
  obtain ⟨c, hc⟩ := bitrate2mask_of_mem os hr
  simp only [validateOptions, hc, databits2mask_of_not_mem os h]

theorem validateOptions_bad_parity (os : OS) (o : Options)
    (hr : o.BitRate ∈ documentedRates os) (hd : o.DataBits ∈ [5, 6, 7, 8])
    (h : o.Parity ∉ [PARITY_NONE, PARITY_ODD, PARITY_EVEN]) :
    validateOptions os o =
      (0, 0, some ⟨ERR_PARAMS, sprintf "invalid Parity (" o.Parity ")"⟩) := by
  obtain ⟨c, hc⟩ := bitrate2mask_of_mem os hr
  simp only [validateOptions, hc, databits2mask_of_mem os hd, parity2mask_of_not_mem os h]

theorem validateOptions_bad_stop (os : OS) (o : Options)
    (hr : o.BitRate ∈ documentedRates os) (hd : o.DataBits ∈ [5, 6, 7, 8])
    (hp : o.Parity ∈ [PARITY_NONE, PARITY_ODD, PARITY_EVEN]) (h : o.StopBits ∉ [1, 2]) :
    validateOptions os o =
      (0, 0, some ⟨ERR_PARAMS, sprintf "invalid StopBits (" o.StopBits ")"⟩) := by
  obtain ⟨c, hc⟩ := bitrate2mask_of_mem os hr
  simp only [validateOptions, hc, databits2mask_of_mem os hd, parity2mask_of_mem os hp,
    stopbits2mask_of_not_mem os h]

/-- An undocumented configuration is rejected with `(0, 0)` and `ERR_PARAMS`. -/
theorem validateOptions_of_not_documented (os : OS) (o : Options) (h : ¬ Documented os o) :
    ∃ msg, validateOptions os o = (0, 0, some ⟨ERR_PARAMS, msg⟩) := by
  by_cases hr : o.BitRate ∈ documentedRates os
  · by_cases hd : o.DataBits ∈ [5, 6, 7, 8]
    · by_cases hp : o.Parity ∈ [PARITY_NONE, PARITY_ODD, PARITY_EVEN]
      · by_cases hs : o.StopBits ∈ [1, 2]
        · exact absurd ⟨hr, hd, hp, hs⟩ h
        · exact ⟨_, validateOptions_bad_stop os o hr hd hp hs⟩
      · exact ⟨_, validateOptions_bad_parity os o hr hd hp⟩
    · exact ⟨_, validateOptions_bad_data os o hr hd⟩
  · exact ⟨_, validateOptions_bad_rate os o hr⟩

/-- C1: on each OS variant `validateOptions` succeeds exactly on the documented
configurations (bit rate in the documented list of that OS, data bits 5..8,
parity none/odd/even, stop bits 1..2); every other configuration yields the pair
`(0, 0)` with an `Error` whose code is `ERR_PARAMS` = 3. -/
theorem validateOptions_succeeds_iff_documented (os : OS) (o : Options) :
    ((validateOptions os o).2.2 = none ↔ Documented os o) ∧
    (¬ Documented os o →
      ∃ msg, validateOptions os o = (0, 0, some ⟨ERR_PARAMS, msg⟩)) ∧
    ERR_PARAMS = 3 := by
  refine ⟨⟨fun h => ?_, fun h => ?_⟩, validateOptions_of_not_documented os o, rfl⟩
  · by_contra hn
    obtain ⟨msg, hm⟩ := validateOptions_of_not_documented os o hn
    rw [hm] at h
    exact absurd h (by simp)
  · obtain ⟨c, _, hv⟩ := validateOptions_of_documented os o h
    rw [hv]

theorem documented_of_ok (os : OS) (o : Options) (h : (validateOptions os o).2.2 = none) :
    Documented os o := by
  by_contra hn
  obtain ⟨msg, hm⟩ := validateOptions_of_not_documented os o hn
  rw [hm] at h
  exact absurd h (by simp)

/-- The result of `validateOptions` on an accepted configuration. -/
theorem validateOptions_eq_of_ok (os : OS) (o : Options)
    (h : (validateOptions os o).2.2 = none) :
    Documented os o ∧
    validateOptions os o =
      ((bitrate2mask os o.BitRate).1,
        specFormatMask os o.DataBits o.Parity o.StopBits, none) := by
  have hd := documented_of_ok os o h
  obtain ⟨c, hc, hv⟩ := validateOptions_of_documented os o hd
  refine ⟨hd, ?_⟩
  rw [hv, hc]
  rfl

theorem bitrate2mask_fits_uint32 (os : OS) :
    ∀ r ∈ documentedRates os, (bitrate2mask os r).1 < 2 ^ 32 := by
  cases os <;> decide

theorem specFormatMask_fits_uint32 (os : OS) :
    ∀ d ∈ [5, 6, 7, 8], ∀ p ∈ [PARITY_NONE, PARITY_ODD, PARITY_EVEN], ∀ s ∈ [1, 2],
      specFormatMask os d p s < 2 ^ 32 := by
  cases os <;> decide

/-- Every speed code and format mask `validateOptions` returns fits 32 bits. -/
theorem validateOptions_fits_uint32 (os : OS) (o : Options)
    (h : (validateOptions os o).2.2 = none) :
    (validateOptions os o).1 < 2 ^ 32 ∧ (validateOptions os o).2.1 < 2 ^ 32 := by
  obtain ⟨⟨hr, hd, hp, hs⟩, hv⟩ := validateOptions_eq_of_ok os o h
  rw [hv]
  exact ⟨bitrate2mask_fits_uint32 os _ hr, specFormatMask_fits_uint32 os _ hd _ hp _ hs⟩

theorem sprintf_eq (before after : String) (n : Nat) :
    sprintf before n after = before ++ toString n ++ after := rfl

/-- C2: when `validateOptions` succeeds, the format mask it returns is
data-bits mask | parity mask | stop-bits mask (CS5..CS8 for 5..8; 0, PARENB|PARODD,
PARENB for none, odd, even; 0, CSTOPB for 1, 2 stop bits). In particular 8N1 gives
exactly CS8 with the PARENB, PARODD and CSTOPB bits clear, and 7E2 gives exactly
CS7 | PARENB | CSTOPB with the PARODD bit clear. -/
theorem validateOptions_format_mask (os : OS) (o : Options)
    (h : (validateOptions os o).2.2 = none) :
    (validateOptions os o).2.1 =
        specDataMask os o.DataBits ||| specParityMask os o.Parity |||
          specStopMask os o.StopBits ∧
    (o.DataBits = 8 → o.Parity = PARITY_NONE → o.StopBits = 1 →
      (validateOptions os o).2.1 = (syscall os).CS8 ∧
      (validateOptions os o).2.1 &&& (syscall os).PARENB = 0 ∧
      (validateOptions os o).2.1 &&& (syscall os).PARODD = 0 ∧
      (validateOptions os o).2.1 &&& (syscall os).CSTOPB = 0) ∧
    (o.DataBits = 7 → o.Parity = PARITY_EVEN → o.StopBits = 2 →
      (validateOptions os o).2.1 =
        (syscall os).CS7 ||| (syscall os).PARENB ||| (syscall os).CSTOPB ∧
      (validateOptions os o).2.1 &&& (syscall os).PARODD = 0) := by
  obtain ⟨c, _, hv⟩ := validateOptions_of_documented os o (documented_of_ok os o h)
  rw [hv]
  refine ⟨rfl, ?_, ?_⟩
  · intro hd hp hs
    rw [hd, hp, hs]
    dsimp only
    cases os <;> decide
  · intro hd hp hs
    rw [hd, hp, hs]
    dsimp only
    cases os <;> decide

/-- Witness for C2: the OS X configuration 19200 7E2. -/
theorem validateOptions_format_mask_witness :
    (validateOptions .darwin ⟨19200, 7, 2, PARITY_EVEN, 5⟩).2.2 = none ∧
    (validateOptions .darwin ⟨19200, 7, 2, PARITY_EVEN, 5⟩).2.1 = 0x200 ||| 0x1000 ||| 0x400 :=
  ⟨by decide,
   ((validateOptions_format_mask .darwin ⟨19200, 7, 2, PARITY_EVEN, 5⟩ (by decide)).2.2
      rfl rfl rfl).1⟩

/-- C3: the error of `validateOptions` is the one of the first invalid field in
the order BitRate, DataBits, Parity, StopBits, whatever the later fields hold; its
code is `ERR_PARAMS` and its message is `invalid <Field> (<n>)` with the offending
value in decimal. BitRate 1 with DataBits 9 reports `invalid BitRate (1)`; a valid
BitRate with DataBits 9 and StopBits 3 reports `invalid DataBits (9)`. -/
theorem validateOptions_first_invalid_field (os : OS) (o : Options) :
    (o.BitRate ∉ documentedRates os →
      validateOptions os o =
        (0, 0, some ⟨ERR_PARAMS, "invalid BitRate (" ++ toString o.BitRate ++ ")"⟩)) ∧
    (o.BitRate ∈ documentedRates os → o.DataBits ∉ [5, 6, 7, 8] →
      validateOptions os o =
        (0, 0, some ⟨ERR_PARAMS, "invalid DataBits (" ++ toString o.DataBits ++ ")"⟩)) ∧
    (o.BitRate ∈ documentedRates os → o.DataBits ∈ [5, 6, 7, 8] →
      o.Parity ∉ [PARITY_NONE, PARITY_ODD, PARITY_EVEN] →
      validateOptions os o =
        (0, 0, some ⟨ERR_PARAMS, "invalid Parity (" ++ toString o.Parity ++ ")"⟩)) ∧
    (o.BitRate ∈ documentedRates os → o.DataBits ∈ [5, 6, 7, 8] →
      o.Parity ∈ [PARITY_NONE, PARITY_ODD, PARITY_EVEN] → o.StopBits ∉ [1, 2] →
      validateOptions os o =
        (0, 0, some ⟨ERR_PARAMS, "invalid StopBits (" ++ toString o.StopBits ++ ")"⟩)) ∧
    (o.BitRate = 1 → o.DataBits = 9 →
      (validateOptions os o).2.2 = some ⟨ERR_PARAMS, "invalid BitRate (1)"⟩) ∧
    (o.BitRate ∈ documentedRates os → o.DataBits = 9 → o.StopBits = 3 →
      (validateOptions os o).2.2 = some ⟨ERR_PARAMS, "invalid DataBits (9)"⟩) := by
  refine ⟨validateOptions_bad_rate os o, validateOptions_bad_data os o,
    validateOptions_bad_parity os o, validateOptions_bad_stop os o, ?_, ?_⟩
  · intro hr _
    have hn : o.BitRate ∉ documentedRates os := by
      rw [hr]; cases os <;> decide
    rw [validateOptions_bad_rate os o hn, hr]
    decide
  · intro hr hd _
    have hn : o.DataBits ∉ [5, 6, 7, 8] := by
      rw [hd]; decide
    rw [validateOptions_bad_data os o hr hn, hd]
    decide

/-! ## `Open` -/

theorem Open_of_invalid (os : OS) (env : Responses) (k : Kernel) (name : String)
    (opt : Options) (err : Error) (h : (validateOptions os opt).2.2 = some err) :
    Open os env k name opt = ((none, some err), k) := by
  unfold Open
  rcases hv : validateOptions os opt with ⟨c, f, e⟩
  rw [hv] at h
  cases h
  rfl

/-- What `Open` does once the options have passed validation, by the answers of
the operating system. -/
theorem Open_of_valid (os : OS) (env : Responses) (k : Kernel) (name : String)
    (opt : Options) (h : (validateOptions os opt).2.2 = none) :
    Open os env k name opt =
      match env.openFile with
      | .error err =>
        ((none, some ⟨if err.isNotExist then ERR_DEVICE
                      else if err.isPermission then ERR_ACCESS else ERR_PARAMS, err.text⟩),
          { k with trace := k.trace ++ [.openFile name] })
      | .ok fd =>
        let a := buildTermios os (validateOptions os opt).1 (validateOptions os opt).2.1
          (if opt.Timeout = 0 then 1 else 0) opt.Timeout
        if env.attrErrno ≠ 0 then
          ((none, some ⟨ERR_PARAMS, sprintf (attrRequestName os) env.attrErrno ""⟩),
            { k with trace := k.trace ++ [.openFile name, .setAttributes fd a, .close fd] })
        else
          match env.nonblockErr with
          | some err =>
            ((none, some ⟨ERR_PARAMS, err⟩),
              { trace := k.trace ++
                  [.openFile name, .setAttributes fd a, .setNonblock fd false, .close fd]
                openFds := k.openFds
                attrs := some a })
          | none =>
            ((some ⟨opt, ⟨name, fd⟩⟩, none),
              { trace := k.trace ++
                  [.openFile name, .setAttributes fd a, .setNonblock fd false]
                openFds := fd :: k.openFds
                attrs := some a }) := by
  unfold Open
  rcases hv : validateOptions os opt with ⟨c, f, e⟩
  rw [hv] at h
  cases h
  rcases env with ⟨o, ae, ne⟩
  rcases o with err | fd
  · simp only [osOpenFile]
    split_ifs <;> rfl
  · by_cases hae : ae = 0
    · subst hae
      cases ne <;>
        simp [osOpenFile, setTermios, ioctlSetAttributes, syscallSetNonblock, fileClose]
    · simp [osOpenFile, setTermios, ioctlSetAttributes, fileClose, hae]

/-- C7: when `validateOptions` rejects the options (for example DataBits = 9),
`Open` returns a nil Port and the validation error (code `ERR_PARAMS`) and sends
no request to the operating system: the state, with its trace of requests and its
list of open descriptors, is unchanged, so from an empty trace the trace is still
empty and no descriptor has been acquired. -/
theorem Open_invalid_options_no_os_call (os : OS) (env : Responses) (k : Kernel)
    (name : String) (opt : Options) (h : (validateOptions os opt).2.2 ≠ none) :
    (∃ msg, (validateOptions os opt).2.2 = some ⟨ERR_PARAMS, msg⟩ ∧
      (Open os env k name opt).1 = (none, some ⟨ERR_PARAMS, msg⟩)) ∧
    (Open os env k name opt).2 = k ∧
    (Open os env k name opt).2.trace = k.trace ∧
    (Open os env k name opt).2.openFds = k.openFds ∧
    (k.trace = [] → (Open os env k name opt).2.trace = []) := by
  have hn : ¬ Documented os opt := fun hd => by
    obtain ⟨c, _, hv⟩ := validateOptions_of_documented os opt hd
    rw [hv] at h
    exact h rfl
  obtain ⟨msg, hm⟩ := validateOptions_of_not_documented os opt hn
  have hv : (validateOptions os opt).2.2 = some ⟨ERR_PARAMS, msg⟩ := by rw [hm]
  have ho := Open_of_invalid os env k name opt _ hv
  rw [ho]
  exact ⟨⟨msg, hv, rfl⟩, rfl, rfl, rfl, fun hk => hk⟩

/-- Witness for C7: DataBits = 9 on Linux, with a device that would open. -/
theorem Open_invalid_options_no_os_call_witness :
    (validateOptions .linux ⟨9600, 9, 1, PARITY_NONE, 0⟩).2.2 ≠ none ∧
    Open .linux ⟨.ok 3, 0, none⟩ ⟨[], [], none⟩ "/dev/ttyS0" ⟨9600, 9, 1, PARITY_NONE, 0⟩ =
      ((none, some ⟨ERR_PARAMS, "invalid DataBits (9)"⟩), ⟨[], [], none⟩) := by
  have h : (validateOptions .linux ⟨9600, 9, 1, PARITY_NONE, 0⟩).2.2 ≠ none := by decide
  have t := Open_invalid_options_no_os_call .linux ⟨.ok 3, 0, none⟩ ⟨[], [], none⟩
    "/dev/ttyS0" ⟨9600, 9, 1, PARITY_NONE, 0⟩ h
  obtain ⟨⟨msg, hm, ho⟩, hk, _⟩ := t
  refine ⟨h, Prod.ext ?_ hk⟩
  rw [ho, ← hm]
  decide

/-- `Open` returns a Port exactly when the options validate and the three
external steps, run in sequence on the state each one leaves, all succeed; the
Port holds the options and the opened file, and the final state is the one the
blocking-mode switch leaves. -/
theorem Open_some_iff_steps (os : OS) (env : Responses) (k : Kernel) (name : String)
    (opt : Options) (p : Port) (k' : Kernel) :
    ((Open os env k name opt).1.1 = some p ∧ (Open os env k name opt).2 = k') ↔
      ((validateOptions os opt).2.2 = none ∧
        ∃ file k1 k2, osOpenFile env k name = (.ok file, k1) ∧
          setTermios os env k1 file.fd (validateOptions os opt).1 (validateOptions os opt).2.1
            (if opt.Timeout = 0 then 1 else 0) opt.Timeout = (none, k2) ∧
          syscallSetNonblock env k2 file.fd false = (none, k') ∧
          p = ⟨opt, file⟩) := by
  unfold Open
  generalize hv : validateOptions os opt = v
  rcases v with ⟨c, f, e⟩
  cases e with
  | some err => simp
  | none =>
    generalize h1 : osOpenFile env k name = r
    rcases r with ⟨r1, k1⟩
    cases r1 with
    | error e1 =>
      simp only [reduceCtorEq, false_and, exists_false, and_false, iff_false, not_and]
      split_ifs <;> simp
    | ok file =>
      dsimp only
      generalize h2 : setTermios os env k1 file.fd c f (if opt.Timeout = 0 then 1 else 0)
        opt.Timeout = r2
      rcases r2 with ⟨e2, k2⟩
      cases e2 with
      | some err2 =>
        simp only [reduceCtorEq, false_and, false_iff, not_and, not_exists, true_and]
        intro file' k1' k2' hf hs2
        cases hf
        rw [h2] at hs2
        cases hs2
      | none =>
        dsimp only
        generalize h3 : syscallSetNonblock env k2 file.fd false = r3
        rcases r3 with ⟨e3, k3⟩
        cases e3 with
        | some err3 =>
          simp only [reduceCtorEq, false_and, false_iff, not_and, not_exists, true_and]
          intro file' k1' k2' hf hs2 hs3
          cases hf
          rw [h2] at hs2
          cases hs2
          rw [h3] at hs3
          cases hs3
        | none =>
          dsimp only
          constructor
          · rintro ⟨hp, hk⟩
            refine ⟨rfl, file, k1, k2, rfl, h2, ?_, (Option.some.inj hp).symm⟩
            rw [h3, hk]
          · rintro ⟨_, file', k1', k2', hf, hs2, hs3, hp⟩
            cases hf
            rw [h2] at hs2
            cases hs2
            rw [h3] at hs3
            cases hs3
            exact ⟨by rw [hp], rfl⟩

theorem Open_port_basic (os : OS) (env : Responses) (k : Kernel)
    (name : String) (opt : Options) :
    ((Open os env k name opt).1.1 ≠ none ↔
      ((validateOptions os opt).2.2 = none ∧ (∃ fd, env.openFile = .ok fd) ∧
        env.attrErrno = 0 ∧ env.nonblockErr = none)) ∧
    ((Open os env k name opt).1.1 = none → (Open os env k name opt).1.2 ≠ none) ∧
    ((Open os env k name opt).1.1 ≠ none → (Open os env k name opt).1.2 = none) ∧
    ((Open os env k name opt).1.1 = none → (Open os env k name opt).2.openFds = k.openFds) ∧
    (∀ fd, (validateOptions os opt).2.2 = none → env.openFile = .ok fd →
      (env.attrErrno ≠ 0 ∨ env.nonblockErr ≠ none) →
      ∃ calls, (Open os env k name opt).2.trace = k.trace ++ calls ∧
        calls.count (.close fd) = 1 ∧ calls.getLast? = some (.close fd) ∧
        calls.head? = some (.openFile name) ∧
        (Open os env k name opt).2.openFds = k.openFds) ∧
    (∀ e, (validateOptions os opt).2.2 = none → env.openFile = .error e →
      (Open os env k name opt).2.trace = k.trace ++ [.openFile name]) := by
  rcases hv : (validateOptions os opt).2.2 with _ | err
  · rw [Open_of_valid os env k name opt hv]
    rcases env with ⟨o, ae, ne⟩
    rcases o with e | fd
    · simp
    · by_cases hae : ae = 0
      · subst hae
        cases ne
        · simp
        · refine ⟨by simp, by simp, by simp, by simp, ?_, by simp⟩
          intro fd' _ hfd _
          cases hfd
          exact ⟨_, rfl, by simp [List.count_cons], by simp, by simp, by simp⟩
      · refine ⟨by simp [hae], by simp [hae], by simp [hae], by simp [hae], ?_, by simp⟩
        intro fd' _ hfd _
        cases hfd
        exact ⟨[.openFile name, .setAttributes fd
            (buildTermios os (validateOptions os opt).1 (validateOptions os opt).2.1
              (if opt.Timeout = 0 then 1 else 0) opt.Timeout), .close fd],
          by simp [hae], by simp [List.count_cons], by simp, by simp, by simp [hae]⟩
  · rw [Open_of_invalid os env k name opt err hv]
    simp

/-- C8: `Open` returns a non-nil Port exactly when validation, the device open,
`setTermios` and the blocking-mode switch all succeed, the three external steps
being run in that order on the state the previous one left; the Port then holds
the options and the opened file, and the requests sent are the open, the
attribute request with the record built from the validated options, and the
switch to blocking mode, with the descriptor left open. Whenever `Open` returns a
nil Port the error is non-nil (and with a Port the error is nil); when
`setTermios` or the blocking-mode switch fails after the descriptor was acquired,
the requests sent end with the one and only `close` of that descriptor and the
list of open descriptors is what it was before the call; a failed device open
acquires nothing. -/
theorem Open_port_iff_all_steps_succeed (os : OS) (env : Responses) (k : Kernel)
    (name : String) (opt : Options) :
    (∀ p k', ((Open os env k name opt).1.1 = some p ∧ (Open os env k name opt).2 = k') ↔
      ((validateOptions os opt).2.2 = none ∧
        ∃ file k1 k2, osOpenFile env k name = (.ok file, k1) ∧
          setTermios os env k1 file.fd (validateOptions os opt).1 (validateOptions os opt).2.1
            (if opt.Timeout = 0 then 1 else 0) opt.Timeout = (none, k2) ∧
          syscallSetNonblock env k2 file.fd false = (none, k') ∧
          p = ⟨opt, file⟩)) ∧
    (∀ fd, (validateOptions os opt).2.2 = none → env.openFile = .ok fd →
      env.attrErrno = 0 → env.nonblockErr = none →
      Open os env k name opt =
        ((some ⟨opt, ⟨name, fd⟩⟩, none),
          { trace := k.trace ++
              [.openFile name,
               .setAttributes fd (buildTermios os (validateOptions os opt).1
                 (validateOptions os opt).2.1 (if opt.Timeout = 0 then 1 else 0) opt.Timeout),
               .setNonblock fd false]
            openFds := fd :: k.openFds
            attrs := some (buildTermios os (validateOptions os opt).1
              (validateOptions os opt).2.1 (if opt.Timeout = 0 then 1 else 0) opt.Timeout) })) ∧
    (∀ fd, (validateOptions os opt).2.2 = none → env.openFile = .ok fd →
      env.attrErrno ≠ 0 →
      (Open os env k name opt).1.1 = none ∧
      (Open os env k name opt).2 =
        { k with trace := k.trace ++
            [.openFile name,
             .setAttributes fd (buildTermios os (validateOptions os opt).1
               (validateOptions os opt).2.1 (if opt.Timeout = 0 then 1 else 0) opt.Timeout),
             .close fd] }) ∧
    (∀ fd err, (validateOptions os opt).2.2 = none → env.openFile = .ok fd →
      env.attrErrno = 0 → env.nonblockErr = some err →
      (Open os env k name opt).1 = (none, some ⟨ERR_PARAMS, err⟩) ∧
      (Open os env k name opt).2 =
        { trace := k.trace ++
            [.openFile name,
             .setAttributes fd (buildTermios os (validateOptions os opt).1
               (validateOptions os opt).2.1 (if opt.Timeout = 0 then 1 else 0) opt.Timeout),
             .setNonblock fd false, .close fd]
          openFds := k.openFds
          attrs := some (buildTermios os (validateOptions os opt).1
            (validateOptions os opt).2.1 (if opt.Timeout = 0 then 1 else 0) opt.Timeout) }) ∧
    (∀ e, (validateOptions os opt).2.2 = none → env.openFile = .error e →
      (Open os env k name opt).1.1 = none ∧
      (Open os env k name opt).2 = { k with trace := k.trace ++ [.openFile name] }) ∧
    ((Open os env k name opt).1.1 ≠ none ↔
      ((validateOptions os opt).2.2 = none ∧ (∃ fd, env.openFile = .ok fd) ∧
        env.attrErrno = 0 ∧ env.nonblockErr = none)) ∧
    ((Open os env k name opt).1.1 = none → (Open os env k name opt).1.2 ≠ none) ∧
    ((Open os env k name opt).1.1 ≠ none → (Open os env k name opt).1.2 = none) ∧
    ((Open os env k name opt).1.1 = none → (Open os env k name opt).2.openFds = k.openFds) ∧
    (∀ fd, (validateOptions os opt).2.2 = none → env.openFile = .ok fd →
      (env.attrErrno ≠ 0 ∨ env.nonblockErr ≠ none) →
      ∃ calls, (Open os env k name opt).2.trace = k.trace ++ calls ∧
        calls.count (.close fd) = 1 ∧ calls.getLast? = some (.close fd) ∧
        calls.head? = some (.openFile name) ∧
        (Open os env k name opt).2.openFds = k.openFds) ∧
    (∀ e, (validateOptions os opt).2.2 = none → env.openFile = .error e →
      (Open os env k name opt).2.trace = k.trace ++ [.openFile name]) := by
  refine ⟨fun p k' => Open_some_iff_steps os env k name opt p k', ?_, ?_, ?_, ?_,
    Open_port_basic os env k name opt⟩
  · intro fd hv ho ha hn
    rw [Open_of_valid os env k name opt hv]
    rcases env with ⟨o, ae, ne⟩
    cases ho; cases ha; cases hn
    simp
  · intro fd hv ho ha
    rw [Open_of_valid os env k name opt hv]
    rcases env with ⟨o, ae, ne⟩
    cases ho
    simp [show ae ≠ 0 from ha]
  · intro fd err hv ho ha hn
    rw [Open_of_valid os env k name opt hv]
    rcases env with ⟨o, ae, ne⟩
    cases ho; cases ha; cases hn
    simp
  · intro e hv ho
    rw [Open_of_valid os env k name opt hv]
    rcases env with ⟨o, ae, ne⟩
    cases ho
    simp

/-- C4: once the options are valid and the device file is open (in particular
whenever `Open` returns a Port), the request `setTermios` sends carries the record
built with VMIN = 1, VTIME = 0 when Timeout = 0 and with VMIN = 0, VTIME = Timeout
otherwise, and these are the values in the VMIN and VTIME control-character
slots of that record. -/
theorem Open_vmin_vtime (os : OS) (env : Responses) (k : Kernel) (name : String)
    (opt : Options) (fd : Nat) (hv : (validateOptions os opt).2.2 = none)
    (ho : env.openFile = .ok fd) :
    ∃ a rest,
      (Open os env k name opt).2.trace =
        k.trace ++ [.openFile name, .setAttributes fd a] ++ rest ∧
      (∀ fd' a', OSCall.setAttributes fd' a' ∉ rest) ∧
      a = buildTermios os (validateOptions os opt).1 (validateOptions os opt).2.1
        (if opt.Timeout = 0 then 1 else 0) (if opt.Timeout = 0 then 0 else opt.Timeout) ∧
      a.controlChars[(syscall os).VMIN]? = some (if opt.Timeout = 0 then 1 else 0) ∧
      a.controlChars[(syscall os).VTIME]? =
        some (if opt.Timeout = 0 then 0 else opt.Timeout) := by
  have hb : buildTermios os (validateOptions os opt).1 (validateOptions os opt).2.1
        (if opt.Timeout = 0 then 1 else 0) opt.Timeout =
      buildTermios os (validateOptions os opt).1 (validateOptions os opt).2.1
        (if opt.Timeout = 0 then 1 else 0) (if opt.Timeout = 0 then 0 else opt.Timeout) := by
    by_cases ht : opt.Timeout = 0
    · simp [ht]
    · simp [ht]
  have hcc : ∀ vmin vtime : Nat,
      (buildTermios os (validateOptions os opt).1 (validateOptions os opt).2.1
          vmin vtime).controlChars[(syscall os).VMIN]? = some vmin ∧
      (buildTermios os (validateOptions os opt).1 (validateOptions os opt).2.1
          vmin vtime).controlChars[(syscall os).VTIME]? = some vtime := by
    intro vmin vtime
    cases os <;> exact ⟨by rfl, by rfl⟩
  rw [Open_of_valid os env k name opt hv]
  rcases env with ⟨o, ae, ne⟩
  cases ho
  refine ⟨buildTermios os (validateOptions os opt).1 (validateOptions os opt).2.1
        (if opt.Timeout = 0 then 1 else 0) (if opt.Timeout = 0 then 0 else opt.Timeout),
      ?_, ?_, ?_, rfl, (hcc _ _).1, (hcc _ _).2⟩
  · exact if ae ≠ 0 then [.close fd] else
      match ne with
      | some _ => [.setNonblock fd false, .close fd]
      | none => [.setNonblock fd false]
  · rw [← hb]
    by_cases hae : ae = 0
    · subst hae
      cases ne <;> simp
    · simp [hae]
  · intro fd' a'
    by_cases hae : ae = 0
    · subst hae
      cases ne <;> simp
    · simp [hae]

/-- Witness for C4: Timeout = 5 gives VMIN = 0 and VTIME = 5 (Linux slots 6 and 5). -/
theorem Open_vmin_vtime_witness :
    ∃ a rest,
      (Open .linux ⟨.ok 3, 0, none⟩ ⟨[], [], none⟩ "/dev/ttyS0"
          ⟨9600, 8, 1, PARITY_NONE, 5⟩).2.trace =
        [] ++ [.openFile "/dev/ttyS0", .setAttributes 3 a] ++ rest ∧
      a.controlChars[6]? = some 0 ∧ a.controlChars[5]? = some 5 := by
  obtain ⟨a, rest, ht, _, _, hmin, htime⟩ :=
    Open_vmin_vtime .linux ⟨.ok 3, 0, none⟩ ⟨[], [], none⟩ "/dev/ttyS0"
      ⟨9600, 8, 1, PARITY_NONE, 5⟩ 3 (by decide) rfl
  exact ⟨a, rest, ht, hmin, htime⟩

/-! ## The terminal-attribute record -/

theorem ccLiteral_length (n i a j b : Nat) : (ccLiteral n i a j b).length = n := by
  simp [ccLiteral]

theorem ccLiteral_getElem? (n i a j b s : Nat) (hi : i < n) (hj : j < n) (hs : s < n) :
    (ccLiteral n i a j b)[s]? = some (if s = j then b else if s = i then a else 0) := by
  unfold ccLiteral
  by_cases h1 : s = j
  · subst h1
    simp [hs]
  · by_cases h2 : s = i
    · subst h2
      simp [h1, Ne.symm h1, hs]
    · simp [h1, h2, Ne.symm h1, Ne.symm h2, hs, List.getElem?_set]

theorem uint32_of_lt {x : Nat} (h : x < 2 ^ 32) : uint32 x = x :=
  Nat.mod_eq_of_lt h

/-- C9 as stated fails on Linux: for 9600 baud 8N1 (speed code B9600, format mask
CS8) the control flags carry the speed code as well, so they are not
CS8 | CREAD | CLOCAL. -/
theorem linux_control_flags_hold_speed_code :
    (buildTermios .linux B9600 linuxSyscall.CS8 1 0).controlFlags = 0x8bd ∧
    linuxSyscall.CS8 ||| linuxSyscall.CREAD ||| linuxSyscall.CLOCAL = 0x8b0 ∧
    (buildTermios .linux B9600 linuxSyscall.CS8 1 0).controlFlags ≠
      linuxSyscall.CS8 ||| linuxSyscall.CREAD ||| linuxSyscall.CLOCAL := by
  decide

/-- The fields of the record `setTermios` builds, for arbitrary arguments. -/
theorem buildTermios_fields (os : OS) (env : Responses) (k : Kernel)
    (fd mrate mfmt vmin vtime : Nat) :
    (setTermios os env k fd mrate mfmt vmin vtime).2.trace =
      k.trace ++ [.setAttributes fd (buildTermios os mrate mfmt vmin vtime)] ∧
    (buildTermios os mrate mfmt vmin vtime).inputFlags = (syscall os).IGNPAR ∧
    (buildTermios os mrate mfmt vmin vtime).outputFlags = 0 ∧
    (buildTermios os mrate mfmt vmin vtime).localFlags = 0 ∧
    (∀ s, (buildTermios os mrate mfmt vmin vtime).controlChars[s]? =
      if s < (buildTermios os mrate mfmt vmin vtime).controlChars.length then
        some (if s = (syscall os).VTIME then vtime
              else if s = (syscall os).VMIN then vmin else 0)
      else none) ∧
    (buildTermios os mrate mfmt vmin vtime).controlChars.length =
      (match os with | .linux => 32 | .darwin => _NCC) ∧
    (syscall os).VMIN < (buildTermios os mrate mfmt vmin vtime).controlChars.length ∧
    (syscall os).VTIME < (buildTermios os mrate mfmt vmin vtime).controlChars.length ∧
    (syscall os).VMIN ≠ (syscall os).VTIME ∧
    (buildTermios os mrate mfmt vmin vtime).inputSpeed =
      (buildTermios os mrate mfmt vmin vtime).outputSpeed ∧
    (os = .darwin →
      (buildTermios os mrate mfmt vmin vtime).controlFlags =
        mfmt ||| (syscall os).CREAD ||| (syscall os).CLOCAL ∧
      (buildTermios os mrate mfmt vmin vtime).inputSpeed = mrate ∧
      (buildTermios os mrate mfmt vmin vtime).outputSpeed = mrate) ∧
    (os = .linux →
      (buildTermios os mrate mfmt vmin vtime).controlFlags =
        mrate % 2 ^ 32 ||| mfmt % 2 ^ 32 ||| (syscall os).CREAD ||| (syscall os).CLOCAL ∧
      (buildTermios os mrate mfmt vmin vtime).inputSpeed = mrate % 2 ^ 32 ∧
      (buildTermios os mrate mfmt vmin vtime).outputSpeed = mrate % 2 ^ 32 ∧
      (mrate < 2 ^ 32 → (buildTermios os mrate mfmt vmin vtime).inputSpeed = mrate ∧
        (buildTermios os mrate mfmt vmin vtime).outputSpeed = mrate ∧
        (mfmt < 2 ^ 32 → (buildTermios os mrate mfmt vmin vtime).controlFlags =
          mrate ||| mfmt ||| (syscall os).CREAD ||| (syscall os).CLOCAL))) := by
  have htrace : (setTermios os env k fd mrate mfmt vmin vtime).2.trace =
      k.trace ++ [.setAttributes fd (buildTermios os mrate mfmt vmin vtime)] := by
    unfold setTermios ioctlSetAttributes
    by_cases hae : env.attrErrno = 0
    · simp [hae]
    · simp [hae]
  refine ⟨htrace, ?_⟩
  cases os
  · refine ⟨rfl, rfl, rfl, ?_, ccLiteral_length _ _ _ _ _, ?_, ?_, by decide, rfl,
      (fun h => absurd h (by decide)), fun _ => ⟨rfl, rfl, rfl, fun h => ?_⟩⟩
    · intro s
      show (ccLiteral 32 linuxSyscall.VMIN vmin linuxSyscall.VTIME vtime)[s]? = _
      by_cases hs : s < 32
      · rw [ccLiteral_getElem? _ _ _ _ _ _ (by decide) (by decide) hs]
        simp [buildTermios, Attributes.controlChars, linuxTermios, ccLiteral_length, hs,
          syscall]
      · have hle : 32 ≤ s := Nat.le_of_not_lt hs
        simp [buildTermios, Attributes.controlChars, linuxTermios, ccLiteral_length, hs, hle]
    · show linuxSyscall.VMIN < (ccLiteral 32 _ _ _ _).length
      rw [ccLiteral_length]; decide
    · show linuxSyscall.VTIME < (ccLiteral 32 _ _ _ _).length
      rw [ccLiteral_length]; decide
    · refine ⟨uint32_of_lt h, uint32_of_lt h, fun hf => ?_⟩
      show uint32 mrate ||| uint32 mfmt ||| _ ||| _ = _
      rw [uint32_of_lt h, uint32_of_lt hf]
      rfl
  · refine ⟨rfl, rfl, rfl, ?_, ccLiteral_length _ _ _ _ _, ?_, ?_, by decide, rfl,
      fun _ => ⟨rfl, rfl, rfl⟩, (fun h => absurd h (by decide))⟩
    · intro s
      show (ccLiteral _NCC darwinSyscall.VMIN vmin darwinSyscall.VTIME vtime)[s]? = _
      by_cases hs : s < _NCC
      · rw [ccLiteral_getElem? _ _ _ _ _ _ (by decide) (by decide) hs]
        simp [buildTermios, Attributes.controlChars, darwinTermios, ccLiteral_length, hs,
          syscall]
      · have hle : _NCC ≤ s := Nat.le_of_not_lt hs
        simp [buildTermios, Attributes.controlChars, darwinTermios, ccLiteral_length, hs, hle]
    · show darwinSyscall.VMIN < (ccLiteral _NCC _ _ _ _).length
      rw [ccLiteral_length]; decide
    · show darwinSyscall.VTIME < (ccLiteral _NCC _ _ _ _).length
      rw [ccLiteral_length]; decide

/-- C9 (amended): the record `setTermios` builds and submits has input flags
IGNPAR only, output and local flags zero, the VMIN and VTIME slots equal to vmin
and vtime with every other slot zero, and equal input and output speeds. On OS X
the control flags are exactly FormatMask | CREAD | CLOCAL and both speeds are
SpeedCode. On Linux the control flags are
uint32(SpeedCode) | uint32(FormatMask) | CREAD | CLOCAL and both speeds are
uint32(SpeedCode), which is SpeedCode itself when it fits 32 bits. Every speed
code and format mask `validateOptions` returns fits 32 bits, so for these the
Linux control flags are SpeedCode | FormatMask | CREAD | CLOCAL and both speeds
are SpeedCode on either OS. -/
theorem setTermios_record (os : OS) (env : Responses) (k : Kernel)
    (fd mrate mfmt vmin vtime : Nat) :
    (∀ o : Options, (validateOptions os o).2.2 = none →
      (validateOptions os o).1 < 2 ^ 32 ∧ (validateOptions os o).2.1 < 2 ^ 32 ∧
      ∀ fd' vmin' vtime',
        (setTermios os env k fd' (validateOptions os o).1 (validateOptions os o).2.1
            vmin' vtime').2.trace =
          k.trace ++ [.setAttributes fd' (buildTermios os (validateOptions os o).1
            (validateOptions os o).2.1 vmin' vtime')] ∧
        (buildTermios os (validateOptions os o).1 (validateOptions os o).2.1
          vmin' vtime').inputSpeed = (validateOptions os o).1 ∧
        (buildTermios os (validateOptions os o).1 (validateOptions os o).2.1
          vmin' vtime').outputSpeed = (validateOptions os o).1 ∧
        (os = .linux →
          (buildTermios os (validateOptions os o).1 (validateOptions os o).2.1
            vmin' vtime').controlFlags =
            (validateOptions os o).1 ||| (validateOptions os o).2.1 |||
              (syscall os).CREAD ||| (syscall os).CLOCAL) ∧
        (os = .darwin →
          (buildTermios os (validateOptions os o).1 (validateOptions os o).2.1
            vmin' vtime').controlFlags =
            (validateOptions os o).2.1 ||| (syscall os).CREAD ||| (syscall os).CLOCAL)) ∧
    ((setTermios os env k fd mrate mfmt vmin vtime).2.trace =
      k.trace ++ [.setAttributes fd (buildTermios os mrate mfmt vmin vtime)] ∧
    (buildTermios os mrate mfmt vmin vtime).inputFlags = (syscall os).IGNPAR ∧
    (buildTermios os mrate mfmt vmin vtime).outputFlags = 0 ∧
    (buildTermios os mrate mfmt vmin vtime).localFlags = 0 ∧
    (∀ s, (buildTermios os mrate mfmt vmin vtime).controlChars[s]? =
      if s < (buildTermios os mrate mfmt vmin vtime).controlChars.length then
        some (if s = (syscall os).VTIME then vtime
              else if s = (syscall os).VMIN then vmin else 0)
      else none) ∧
    (buildTermios os mrate mfmt vmin vtime).controlChars.length =
      (match os with | .linux => 32 | .darwin => _NCC) ∧
    (syscall os).VMIN < (buildTermios os mrate mfmt vmin vtime).controlChars.length ∧
    (syscall os).VTIME < (buildTermios os mrate mfmt vmin vtime).controlChars.length ∧
    (syscall os).VMIN ≠ (syscall os).VTIME ∧
    (buildTermios os mrate mfmt vmin vtime).inputSpeed =
      (buildTermios os mrate mfmt vmin vtime).outputSpeed ∧
    (os = .darwin →
      (buildTermios os mrate mfmt vmin vtime).controlFlags =
        mfmt ||| (syscall os).CREAD ||| (syscall os).CLOCAL ∧
      (buildTermios os mrate mfmt vmin vtime).inputSpeed = mrate ∧
      (buildTermios os mrate mfmt vmin vtime).outputSpeed = mrate) ∧
    (os = .linux →
      (buildTermios os mrate mfmt vmin vtime).controlFlags =
        mrate % 2 ^ 32 ||| mfmt % 2 ^ 32 ||| (syscall os).CREAD ||| (syscall os).CLOCAL ∧
      (buildTermios os mrate mfmt vmin vtime).inputSpeed = mrate % 2 ^ 32 ∧
      (buildTermios os mrate mfmt vmin vtime).outputSpeed = mrate % 2 ^ 32 ∧
      (mrate < 2 ^ 32 → (buildTermios os mrate mfmt vmin vtime).inputSpeed = mrate ∧
        (buildTermios os mrate mfmt vmin vtime).outputSpeed = mrate ∧
        (mfmt < 2 ^ 32 → (buildTermios os mrate mfmt vmin vtime).controlFlags =
          mrate ||| mfmt ||| (syscall os).CREAD ||| (syscall os).CLOCAL)))) := by
  refine ⟨fun o ho => ?_, buildTermios_fields os env k fd mrate mfmt vmin vtime⟩
  obtain ⟨hc, hf⟩ := validateOptions_fits_uint32 os o ho
  refine ⟨hc, hf, fun fd' vmin' vtime' => ?_⟩
  obtain ⟨ht, _, _, _, _, _, _, _, _, _, hdar, hlin⟩ :=
    buildTermios_fields os env k fd' (validateOptions os o).1 (validateOptions os o).2.1
      vmin' vtime'
  refine ⟨ht, ?_, ?_, fun hos => ((hlin hos).2.2.2 hc).2.2 hf, fun hos => (hdar hos).1⟩
  · cases os
    · exact ((hlin rfl).2.2.2 hc).1
    · exact (hdar rfl).2.1
  · cases os
    · exact ((hlin rfl).2.2.2 hc).2.1
    · exact (hdar rfl).2.2

/-! ## Control signals -/

theorem andNot_testBit (x y i : Nat) :
    (andNot x y).testBit i = (x.testBit i && (decide (i < 64) != y.testBit i)) := by
  unfold andNot UINT_MAX
  rw [Nat.testBit_and, Nat.testBit_xor, Nat.testBit_two_pow_sub_one]

theorem testBit_false_of_ge {s i : Nat} (hs : s < 2 ^ 64) (hi : 64 ≤ i) :
    s.testBit i = false :=
  Nat.testBit_lt_two_pow (Nat.lt_of_lt_of_le hs (Nat.pow_le_pow_right (by decide) hi))

theorem lor_testBit_ite (s m i : Nat) :
    (s ||| m).testBit i = if m.testBit i then true else s.testBit i := by
  rw [Nat.testBit_or]
  cases s.testBit i <;> cases m.testBit i <;> rfl

theorem andNot_testBit_ite {s : Nat} (hs : s < 2 ^ 64) (m i : Nat) :
    (andNot s m).testBit i = if m.testBit i then false else s.testBit i := by
  rw [andNot_testBit]
  by_cases hi : i < 64
  · simp only [hi, decide_True]
    cases s.testBit i <;> cases m.testBit i <;> rfl
  · rw [testBit_false_of_ge hs (Nat.le_of_not_lt hi)]
    cases m.testBit i <;> rfl

theorem lor_land_self (s m : Nat) : (s ||| m) &&& m = m := by
  apply Nat.eq_of_testBit_eq
  intro i
  rw [Nat.testBit_and, Nat.testBit_or]
  cases s.testBit i <;> cases m.testBit i <;> rfl

theorem andNot_land_self {m : Nat} (hm : m < 2 ^ 64) (s : Nat) : andNot s m &&& m = 0 := by
  apply Nat.eq_of_testBit_eq
  intro i
  rw [Nat.testBit_and, andNot_testBit, Nat.zero_testBit]
  by_cases hi : i < 64
  · simp only [hi, decide_True]
    cases s.testBit i <;> cases m.testBit i <;> rfl
  · rw [testBit_false_of_ge hm (Nat.le_of_not_lt hi), Bool.and_false]

/-- The register `setControlSignal` writes when both requests succeed. -/
theorem setControlSignal_of_success (d : Device) (m : Nat) (b : Bool)
    (hg : d.mgetErrno = 0) (hs : d.msetErrno = 0) :
    setControlSignal d m b =
      (none, { d with modem := if b then d.modem ||| m else andNot d.modem m }) := by
  cases b <;> simp [setControlSignal, ioctlTIOCMGET, ioctlTIOCMSET, hg, hs]

/-- A failed `setControlSignal` leaves the device as it was. -/
theorem setControlSignal_of_failure (d : Device) (m : Nat) (b : Bool)
    (h : ¬ (d.mgetErrno = 0 ∧ d.msetErrno = 0)) :
    (setControlSignal d m b).1 ≠ none ∧ (setControlSignal d m b).2 = d := by
  by_cases hg : d.mgetErrno = 0
  · have hs : d.msetErrno ≠ 0 := fun hs => h ⟨hg, hs⟩
    cases b <;> simp [setControlSignal, ioctlTIOCMGET, ioctlTIOCMSET, hg, hs]
  · simp [setControlSignal, ioctlTIOCMGET, hg]

theorem setControlSignal_success_iff (d : Device) (m : Nat) (b : Bool) :
    (setControlSignal d m b).1 = none ↔ (d.mgetErrno = 0 ∧ d.msetErrno = 0) := by
  constructor
  · intro h
    by_contra hn
    exact (setControlSignal_of_failure d m b hn).1 h
  · rintro ⟨hg, hs⟩
    rw [setControlSignal_of_success d m b hg hs]

theorem getControlSignal_of_success (d : Device) (m : Nat) (hg : d.mgetErrno = 0) :
    getControlSignal d m = (decide (d.modem &&& m ≠ 0), none) := by
  simp [getControlSignal, ioctlTIOCMGET, hg]

/-- Reading back a signal that was just set, for any non-empty mask of a `uint`. -/
theorem get_after_set (d : Device) (m : Nat) (b : Bool) (hpos : m ≠ 0) (hm : m < 2 ^ 64)
    (hg : d.mgetErrno = 0) (hs : d.msetErrno = 0) :
    getControlSignal (setControlSignal d m b).2 m = (b, none) := by
  rw [setControlSignal_of_success d m b hg hs]
  dsimp only
  rw [getControlSignal_of_success
    ⟨if b = true then d.modem ||| m else andNot d.modem m, d.mgetErrno, d.msetErrno⟩ m hg]
  cases b
  · simp [andNot_land_self hm]
  · simp [lor_land_self, hpos]

/-- The bits of the register after `setControlSignal`, whatever its outcome. -/
theorem setControlSignal_testBit (d : Device) (hreg : d.modem < 2 ^ 64) (m : Nat) (b : Bool)
    (i : Nat) :
    (setControlSignal d m b).2.modem.testBit i =
      if (setControlSignal d m b).1 = none then
        (if m.testBit i then b else d.modem.testBit i)
      else d.modem.testBit i := by
  by_cases h : d.mgetErrno = 0 ∧ d.msetErrno = 0
  · rw [setControlSignal_of_success d m b h.1 h.2]
    cases b
    · simpa using andNot_testBit_ite hreg m i
    · simpa using lor_testBit_ite d.modem m i
  · obtain ⟨h1, h2⟩ := setControlSignal_of_failure d m b h
    rw [h2, if_neg h1]

/-- Bits outside the mask are untouched. -/
theorem setControlSignal_frame_mask (d : Device) (hreg : d.modem < 2 ^ 64) (m mask : Nat)
    (b : Bool) (hdisj : m &&& mask = 0) :
    (setControlSignal d m b).2.modem &&& mask = d.modem &&& mask := by
  apply Nat.eq_of_testBit_eq
  intro i
  rw [Nat.testBit_and, Nat.testBit_and, setControlSignal_testBit d hreg m b i]
  have hi : (m.testBit i && mask.testBit i) = false := by
    rw [← Nat.testBit_and, hdisj, Nat.zero_testBit]
  split_ifs with h1 h2
  · rw [h2] at hi
    simp only [Bool.true_and] at hi
    rw [hi, Bool.and_false, Bool.and_false]
  · rfl
  · rfl

/-- Raising a signal twice is raising it once. -/
theorem setControlSignal_true_twice (d : Device) (m : Nat) :
    (setControlSignal (setControlSignal d m true).2 m true).2 =
      (setControlSignal d m true).2 := by
  by_cases h : d.mgetErrno = 0 ∧ d.msetErrno = 0
  · rw [setControlSignal_of_success d m true h.1 h.2]
    simp only [if_true]
    rw [setControlSignal_of_success ⟨d.modem ||| m, d.mgetErrno, d.msetErrno⟩ m true h.1 h.2]
    simp only [if_true, Nat.or_assoc, Nat.or_self]
  · rw [(setControlSignal_of_failure d m true h).2, (setControlSignal_of_failure d m true h).2]

/-- After a successful call the bits of the mask read as the level. -/
theorem setControlSignal_own_bits (d : Device) (m : Nat) (b : Bool) (hm : m < 2 ^ 64)
    (hg : d.mgetErrno = 0) (hs : d.msetErrno = 0) :
    (setControlSignal d m b).2.modem &&& m = (if b then m else 0) := by
  rw [setControlSignal_of_success d m b hg hs]
  cases b
  · simp [andNot_land_self hm]
  · simp [lor_land_self]

theorem signal_mask_bounds (os : OS) :
    (syscall os).TIOCM_RTS ≠ 0 ∧ (syscall os).TIOCM_RTS < 2 ^ 64 ∧
    (syscall os).TIOCM_DTR ≠ 0 ∧ (syscall os).TIOCM_DTR < 2 ^ 64 := by
  cases os <;> decide

theorem signal_masks_disjoint (os : OS) :
    (syscall os).TIOCM_RTS &&& (syscall os).TIOCM_DTR = 0 ∧
    (syscall os).TIOCM_RTS &&& (syscall os).TIOCM_CTS = 0 ∧
    (syscall os).TIOCM_RTS &&& (syscall os).TIOCM_DSR = 0 ∧
    (syscall os).TIOCM_DTR &&& (syscall os).TIOCM_RTS = 0 ∧
    (syscall os).TIOCM_DTR &&& (syscall os).TIOCM_CTS = 0 ∧
    (syscall os).TIOCM_DTR &&& (syscall os).TIOCM_DSR = 0 := by
  cases os <;> decide

/-- C5: with the modem-bit register as explicit state and the `TIOCMGET` and
`TIOCMSET` requests succeeding, for every register value, every output mask m in
{TIOCM_RTS, TIOCM_DTR} and every level b, `setControlSignal(m, b)` followed by
`getControlSignal(m)` returns b with no error; so `SetRTS(b)` then `GetRTS` yields
b, and `SetDTR(b)` then `GetDTR` yields b. -/
theorem set_then_get_signal (os : OS) (d : Device) (m : Nat) (b : Bool)
    (hm : m = (syscall os).TIOCM_RTS ∨ m = (syscall os).TIOCM_DTR)
    (hg : d.mgetErrno = 0) (hs : d.msetErrno = 0) :
    (setControlSignal d m b).1 = none ∧
    getControlSignal (setControlSignal d m b).2 m = (b, none) ∧
    (SetRTS os d b).1 = none ∧ GetRTS os (SetRTS os d b).2 = (b, none) ∧
    (SetDTR os d b).1 = none ∧ GetDTR os (SetDTR os d b).2 = (b, none) := by
  obtain ⟨r0, r64, t0, t64⟩ := signal_mask_bounds os
  refine ⟨(setControlSignal_success_iff d m b).2 ⟨hg, hs⟩, ?_,
    (setControlSignal_success_iff d _ b).2 ⟨hg, hs⟩, get_after_set d _ b r0 r64 hg hs,
    (setControlSignal_success_iff d _ b).2 ⟨hg, hs⟩, get_after_set d _ b t0 t64 hg hs⟩
  rcases hm with rfl | rfl
  · exact get_after_set d _ b r0 r64 hg hs
  · exact get_after_set d _ b t0 t64 hg hs

/-- Witness for C5: clearing RTS on a register with RTS, DTR, CTS and DSR raised,
then reading RTS back. -/
theorem set_then_get_signal_witness :
    getControlSignal (setControlSignal ⟨0x126, 0, 0⟩ 0x4 false).2 0x4 = (false, none) ∧
    getControlSignal (setControlSignal ⟨0x126, 0, 0⟩ 0x4 false).2 0x2 = (true, none) :=
  ⟨(set_then_get_signal .linux ⟨0x126, 0, 0⟩ 0x4 false (Or.inl rfl) rfl rfl).2.1, by decide⟩

/-- C6: with the modem-bit register (a `uint`) as explicit state,
`setControlSignal(m, b)` succeeds exactly when both requests succeed, and a
successful call leaves every bit of m equal to b and every bit outside m as it
was. Hence `SetRTS` never changes the DTR, CTS or DSR bit, `SetDTR` never changes
the RTS, CTS or DSR bit, and `SetDTR(true)` twice in succession leaves the
register as after one call. -/
theorem setControlSignal_sets_only_mask (os : OS) (d : Device) (hreg : d.modem < 2 ^ 64) :
    (∀ m b, (setControlSignal d m b).1 = none ↔ (d.mgetErrno = 0 ∧ d.msetErrno = 0)) ∧
    (d.mgetErrno = 0 → d.msetErrno = 0 → ∀ m b,
      (setControlSignal d m b).1 = none ∧
      (setControlSignal d m b).2.mgetErrno = d.mgetErrno ∧
      (setControlSignal d m b).2.msetErrno = d.msetErrno ∧
      ∀ i, (setControlSignal d m b).2.modem.testBit i =
        if m.testBit i then b else d.modem.testBit i) ∧
    (d.mgetErrno = 0 → d.msetErrno = 0 → ∀ b,
      (SetRTS os d b).1 = none ∧ (SetDTR os d b).1 = none ∧
      (SetRTS os d b).2.modem &&& (syscall os).TIOCM_RTS =
        (if b then (syscall os).TIOCM_RTS else 0) ∧
      (SetDTR os d b).2.modem &&& (syscall os).TIOCM_DTR =
        (if b then (syscall os).TIOCM_DTR else 0)) ∧
    (∀ m b, (setControlSignal d m b).1 = none →
      ∀ i, (setControlSignal d m b).2.modem.testBit i =
        if m.testBit i then b else d.modem.testBit i) ∧
    (∀ b, (SetRTS os d b).2.modem &&& (syscall os).TIOCM_DTR =
            d.modem &&& (syscall os).TIOCM_DTR ∧
          (SetRTS os d b).2.modem &&& (syscall os).TIOCM_CTS =
            d.modem &&& (syscall os).TIOCM_CTS ∧
          (SetRTS os d b).2.modem &&& (syscall os).TIOCM_DSR =
            d.modem &&& (syscall os).TIOCM_DSR) ∧
    (∀ b, (SetDTR os d b).2.modem &&& (syscall os).TIOCM_RTS =
            d.modem &&& (syscall os).TIOCM_RTS ∧
          (SetDTR os d b).2.modem &&& (syscall os).TIOCM_CTS =
            d.modem &&& (syscall os).TIOCM_CTS ∧
          (SetDTR os d b).2.modem &&& (syscall os).TIOCM_DSR =
            d.modem &&& (syscall os).TIOCM_DSR) ∧
    (SetDTR os (SetDTR os d true).2 true).2 = (SetDTR os d true).2 := by
  obtain ⟨h1, h2, h3, h4, h5, h6⟩ := signal_masks_disjoint os
  obtain ⟨_, r64, _, t64⟩ := signal_mask_bounds os
  refine ⟨fun m b => setControlSignal_success_iff d m b, ?_, ?_, ?_, ?_, ?_, ?_⟩
  · intro hg hs m b
    have hok := (setControlSignal_success_iff d m b).2 ⟨hg, hs⟩
    refine ⟨hok, ?_, ?_, fun i => ?_⟩
    · rw [setControlSignal_of_success d m b hg hs]
    · rw [setControlSignal_of_success d m b hg hs]
    · rw [setControlSignal_testBit d hreg m b i, if_pos hok]
  · intro hg hs b
    refine ⟨(setControlSignal_success_iff d _ b).2 ⟨hg, hs⟩,
      (setControlSignal_success_iff d _ b).2 ⟨hg, hs⟩,
      setControlSignal_own_bits d _ b r64 hg hs, setControlSignal_own_bits d _ b t64 hg hs⟩
  · intro m b hok i
    rw [setControlSignal_testBit d hreg m b i, if_pos hok]
  · intro b
    exact ⟨setControlSignal_frame_mask d hreg _ _ b h1,
      setControlSignal_frame_mask d hreg _ _ b h2,
      setControlSignal_frame_mask d hreg _ _ b h3⟩
  · intro b
    exact ⟨setControlSignal_frame_mask d hreg _ _ b h4,
      setControlSignal_frame_mask d hreg _ _ b h5,
      setControlSignal_frame_mask d hreg _ _ b h6⟩
  · exact setControlSignal_true_twice d _

/-- Witness for C6: raising DTR on a register with RTS, CTS and DSR set succeeds,
sets the DTR bit, keeps the RTS bit and the clear bit 3, and a second call changes
nothing. -/
theorem setControlSignal_sets_only_mask_witness :
    (setControlSignal ⟨0x124, 0, 0⟩ 0x2 true).1 = none ∧
    (setControlSignal ⟨0x124, 0, 0⟩ 0x2 true).2.modem.testBit 1 = true ∧
    (setControlSignal ⟨0x124, 0, 0⟩ 0x2 true).2.modem.testBit 2 = true ∧
    (setControlSignal ⟨0x124, 0, 0⟩ 0x2 true).2.modem.testBit 3 = false ∧
    (SetDTR .linux (SetDTR .linux ⟨0x124, 0, 0⟩ true).2 true).2 =
      (SetDTR .linux ⟨0x124, 0, 0⟩ true).2 :=
  ⟨((setControlSignal_sets_only_mask .linux ⟨0x124, 0, 0⟩ (by decide)).2.1 rfl rfl
      0x2 true).1,
   (((setControlSignal_sets_only_mask .linux ⟨0x124, 0, 0⟩ (by decide)).2.1 rfl rfl
      0x2 true).2.2.2 1).trans (by decide),
   (((setControlSignal_sets_only_mask .linux ⟨0x124, 0, 0⟩ (by decide)).2.1 rfl rfl
      0x2 true).2.2.2 2).trans (by decide),
   (((setControlSignal_sets_only_mask .linux ⟨0x124, 0, 0⟩ (by decide)).2.1 rfl rfl
      0x2 true).2.2.2 3).trans (by decide),
   (setControlSignal_sets_only_mask .linux ⟨0x124, 0, 0⟩ (by decide)).2.2.2.2.2.2⟩

/-! ## Injectivity of the encodings -/

theorem rateOfLinuxCode_bitrate2mask :
    ∀ r ∈ documentedRatesLinux, rateOfLinuxCode (bitrate2maskLinux r).1 = r := by
  decide

theorem bitrate2maskDarwin_fst :
    ∀ r ∈ documentedRatesDarwin, (bitrate2maskDarwin r).1 = r := by
  decide

theorem specFormatMask_injective (os : OS) :
    ∀ d ∈ [5, 6, 7, 8], ∀ p ∈ [PARITY_NONE, PARITY_ODD, PARITY_EVEN], ∀ s ∈ [1, 2],
    ∀ d' ∈ [5, 6, 7, 8], ∀ p' ∈ [PARITY_NONE, PARITY_ODD, PARITY_EVEN], ∀ s' ∈ [1, 2],
      specFormatMask os d p s = specFormatMask os d' p' s' → d = d' ∧ p = p' ∧ s = s' := by
  cases os <;> decide

theorem linux_cflag_fields :
    ∀ r ∈ documentedRatesLinux, ∀ d ∈ [5, 6, 7, 8],
    ∀ p ∈ [PARITY_NONE, PARITY_ODD, PARITY_EVEN], ∀ s ∈ [1, 2],
      (uint32 (bitrate2maskLinux r).1 ||| uint32 (specFormatMask .linux d p s) |||
          linuxSyscall.CREAD ||| linuxSyscall.CLOCAL) &&& CBAUD = (bitrate2maskLinux r).1 ∧
      (uint32 (bitrate2maskLinux r).1 ||| uint32 (specFormatMask .linux d p s) |||
          linuxSyscall.CREAD ||| linuxSyscall.CLOCAL) &&& 0x370 =
        specFormatMask .linux d p s ∧
      (bitrate2maskLinux r).1 &&& specFormatMask .linux d p s = 0 := by
  decide

theorem bitrate2mask_injective (os : OS) {r r' : Nat} (h : r ∈ documentedRates os)
    (h' : r' ∈ documentedRates os) (hc : (bitrate2mask os r).1 = (bitrate2mask os r').1) :
    r = r' := by
  cases os
  · have e := congrArg rateOfLinuxCode hc
    rwa [show bitrate2mask .linux = bitrate2maskLinux from rfl,
      rateOfLinuxCode_bitrate2mask r h, rateOfLinuxCode_bitrate2mask r' h'] at e
  · rwa [show bitrate2mask .darwin = bitrate2maskDarwin from rfl,
      bitrate2maskDarwin_fst r h, bitrate2maskDarwin_fst r' h'] at hc

/-- C10: on each OS variant `validateOptions` is injective on the configurations
it accepts: two accepted configurations that differ in BitRate, DataBits, Parity
or StopBits get different (speed code, format mask) pairs. On Linux they also get
different control-flags words uint32(speed) | uint32(format) | CREAD | CLOCAL, the
speed code and the format mask being recoverable from the word (the speed-code
bits are disjoint from the format-mask bits). -/
theorem validateOptions_injective (os : OS) (a b : Options)
    (ha : (validateOptions os a).2.2 = none) (hb : (validateOptions os b).2.2 = none)
    (hne : a.BitRate ≠ b.BitRate ∨ a.DataBits ≠ b.DataBits ∨ a.Parity ≠ b.Parity ∨
      a.StopBits ≠ b.StopBits) :
    ((validateOptions os a).1, (validateOptions os a).2.1) ≠
      ((validateOptions os b).1, (validateOptions os b).2.1) ∧
    (os = .linux →
      (validateOptions os a).1 &&& (validateOptions os a).2.1 = 0 ∧
      ∀ va ta vb tb,
        (linuxTermios (validateOptions os a).1 (validateOptions os a).2.1 va ta).Cflag ≠
          (linuxTermios (validateOptions os b).1 (validateOptions os b).2.1 vb tb).Cflag) := by
  obtain ⟨⟨har, had, hap, has⟩, hva⟩ := validateOptions_eq_of_ok os a ha
  obtain ⟨⟨hbr, hbd, hbp, hbs⟩, hvb⟩ := validateOptions_eq_of_ok os b hb
  have key : (bitrate2mask os a.BitRate).1 = (bitrate2mask os b.BitRate).1 →
      specFormatMask os a.DataBits a.Parity a.StopBits =
        specFormatMask os b.DataBits b.Parity b.StopBits → False := by
    intro hc hf
    have hr := bitrate2mask_injective os har hbr hc
    obtain ⟨h1, h2, h3⟩ :=
      specFormatMask_injective os _ had _ hap _ has _ hbd _ hbp _ hbs hf
    rcases hne with h | h | h | h
    · exact h hr
    · exact h h1
    · exact h h2
    · exact h h3
  rw [hva, hvb]
  refine ⟨fun h => ?_, fun hos => ?_⟩
  · exact key (Prod.ext_iff.1 h).1 (Prod.ext_iff.1 h).2
  · subst hos
    obtain ⟨ha1, ha2, ha3⟩ := linux_cflag_fields _ har _ had _ hap _ has
    obtain ⟨hb1, hb2, _⟩ := linux_cflag_fields _ hbr _ hbd _ hbp _ hbs
    refine ⟨ha3, fun va ta vb tb h => ?_⟩
    have h' : uint32 (bitrate2maskLinux a.BitRate).1 |||
          uint32 (specFormatMask .linux a.DataBits a.Parity a.StopBits) |||
          linuxSyscall.CREAD ||| linuxSyscall.CLOCAL =
        uint32 (bitrate2maskLinux b.BitRate).1 |||
          uint32 (specFormatMask .linux b.DataBits b.Parity b.StopBits) |||
          linuxSyscall.CREAD ||| linuxSyscall.CLOCAL := h
    apply key
    · have e := congrArg (fun w => w &&& CBAUD) h'
      simp only [ha1, hb1] at e
      exact e
    · have e := congrArg (fun w => w &&& 0x370) h'
      simp only [ha2, hb2] at e
      exact e

/-- Witness for C10: 9600 8N1 and 19200 8N1 on Linux. -/
theorem validateOptions_injective_witness :
    ((validateOptions .linux ⟨9600, 8, 1, PARITY_NONE, 0⟩).1,
        (validateOptions .linux ⟨9600, 8, 1, PARITY_NONE, 0⟩).2.1) ≠
      ((validateOptions .linux ⟨19200, 8, 1, PARITY_NONE, 0⟩).1,
        (validateOptions .linux ⟨19200, 8, 1, PARITY_NONE, 0⟩).2.1) :=
  (validateOptions_injective .linux ⟨9600, 8, 1, PARITY_NONE, 0⟩
    ⟨19200, 8, 1, PARITY_NONE, 0⟩ (by decide) (by decide) (Or.inl (by decide))).1

end RS232
